import Mathlib

/-!
Verification development for the fo_qbo QuickBooks Online client library.

The definitions below are a shallow embedding of the Python sources:
  * src/fo_qbo/errors.py  (QBOErrorHandler: fault extraction and error classification)
  * src/fo_qbo/qba.py     (QBAuth2: OAuth2 token lifecycle, request dispatch)
  * src/fo_qbo/qbs.py     (QBS: request retry wrapper and response surfacing)

JSON response bodies are modelled by an inductive `JVal`; pandas dataframes of
flattened faults become lists of association lists (one per row, column name to
cell value); external collaborators (the Intuit token endpoint, the Google Cloud
credential bucket, the token audit log, the HTTP transport) become explicit
environment parameters, and side effects (cache repair, ticket creation, raised
exceptions, sleeps) become explicit event traces.
-/

namespace FoQbo

/-- A JSON value, as produced by `response.json()`.  Dict entries keep their
order; objects are association lists. -/
inductive JVal where
  | str (s : String)
  | num (n : Int)
  | bool (b : Bool)
  | null
  | arr (xs : List JVal)
  | obj (kvs : List (String × JVal))

/-- First-match key lookup in an object's association list (Python `dict.get`
on JSON-decoded data, whose keys are unique in practice). -/
def lookupJ : List (String × JVal) → String → Option JVal
  | [], _ => none
  | (k, v) :: rest, key => if k = key then some v else lookupJ rest key

/-- Python `key in d` for a decoded JSON object. -/
def hasKeyJ (kvs : List (String × JVal)) (k : String) : Bool :=
  (lookupJ kvs k).isSome

/-- Python truthiness of a decoded JSON value (`bool(v)`): empty strings,
zero, `False`, `None` and empty containers are falsy. -/
def truthyJ : JVal → Bool
  | .str s => !s.isEmpty
  | .num n => n != 0
  | .bool b => b
  | .null => false
  | .arr xs => !xs.isEmpty
  | .obj kvs => !kvs.isEmpty

/-- Does the value equal the given string (pandas cell equality against a
string literal: non-string cells never compare equal)? -/
def isStrVal (v : JVal) (s : String) : Bool :=
  match v with
  | .str t => t == s
  | _ => false

/-- `df[col] = value`: overwrite (or add) one column of a row. -/
def setColJ (row : List (String × JVal)) (k : String) (v : JVal) :
    List (String × JVal) :=
  (row.filter (fun p => p.1 ≠ k)) ++ [(k, v)]

/-- Lexicographic order on character lists, by code point, mirroring CPython
string comparison.  (Lean's builtin String order does not reduce in the
kernel, so we spell it out.) -/
def lexLe : List Char → List Char → Bool
  | [], _ => true
  | _ :: _, [] => false
  | a :: as, b :: bs => if a < b then true else if b < a then false else lexLe as bs

/-- Python `a <= b` on strings. -/
def strLe (a b : String) : Bool := lexLe a.toList b.toList

/-- Strict lexicographic order on character lists, by code point. -/
def lexLt : List Char → List Char → Bool
  | [], [] => false
  | [], _ :: _ => true
  | _ :: _, [] => false
  | a :: as, b :: bs => if a < b then true else if b < a then false else lexLt as bs

/-- Python `a < b` on strings. -/
def strLt (a b : String) : Bool := lexLt a.toList b.toList

/-- Substring containment, mirroring `pandas.Series.str.contains` with a
pattern free of regex metacharacters (all phrases matched by errors.py are
plain text). -/
def containsSubstr (s pat : String) : Bool :=
  (s.toList.tails).any (fun t => pat.toList.isPrefixOf t)

/-! ## Fault extraction (errors.py `QBOErrorHandler`) -/

/-- errors.py: `CACHING_ERROR_CODES = ['5010', '610']`. -/
def CACHING_ERROR_CODES : List String := ["5010", "610"]

/-- errors.py: `BUSINESS_VALIDATION_ERROR_CODES = ['6000']`. -/
def BUSINESS_VALIDATION_ERROR_CODES : List String := ["6000"]

/-- errors.py: `OTHER_SUSPECTED_TRANSIENT_ERROR_CODES = []` (the '5020' entry
is commented out in the source). -/
def OTHER_SUSPECTED_TRANSIENT_ERROR_CODES : List String := []

/-- errors.py: `SUPPORTED_STATUS_CODES = [200, 400]`. -/
def SUPPORTED_STATUS_CODES : List Nat := [200, 400]

/-- Python `'Fault' in i` for one decoded batch item: a key test for dicts,
a substring test for strings, an element test for lists; on a non-iterable
item (number, boolean, null) CPython raises TypeError, modelled as `none`. -/
def faultMembership : JVal → Option Bool
  | .obj ikvs => some (hasKeyJ ikvs "Fault")
  | .str s => some (containsSubstr s "Fault")
  | .arr xs => some (xs.any (fun x =>
      match x with
      | .str s => s == "Fault"
      | _ => false))
  | _ => none

/-- `QBOErrorHandler.get_list_of_faults`.  Three shapes: a dict with a
'Fault' key ("non-batch"), a dict with a 'BatchItemResponse' list (items
whose `'Fault' in i` test is false are dropped), and a non-empty list whose
first element passes the `'Fault' in data[0]` test ("error_dict" format,
returned whole).  When any membership test raises TypeError (a non-iterable
item), the exception propagates to the `faults` setter whose handler resets
`_faults` to `[]`: that collapse of the whole fault list is modelled here by
returning `[]`, as it is for a 'BatchItemResponse' value that is not a
list. -/
def get_list_of_faults (data : JVal) : List JVal :=
  match data with
  | .obj kvs =>
    if hasKeyJ kvs "Fault" then [data]
    else
      match lookupJ kvs "BatchItemResponse" with
      | some (.arr items) =>
        if items.all (fun i => (faultMembership i).isSome) then
          items.filter (fun i => (faultMembership i).getD false)
        else []
      | _ => []
  | .arr (first :: rest) =>
    if (faultMembership first).getD false then first :: rest else []
  | _ => []

/-- One flattened dataframe row: column name to cell value. -/
abbrev Row := List (String × JVal)

/-- All-or-nothing traversal: maps `f` over the list, failing (raising, in
the Python source) as soon as any element fails. -/
def mapMO {A B : Type} (f : A → Option B) : List A → Option (List B)
  | [] => some []
  | a :: l =>
    match f a, mapMO f l with
    | some b, some bs => some (b :: bs)
    | _, _ => none

/-- Extract the association list of a JSON object; non-objects fail (the
pandas pipeline raises on them). -/
def objOfJ : JVal → Option (List (String × JVal))
  | .obj kvs => some kvs
  | _ => none

/-- `pd.io.json.json_normalize(row.Fault, record_path=['Error'])`: one row per
element of the fault's 'Error' list, with that element's own keys as columns.
Any shape on which json_normalize would raise (no 'Error' list, non-dict
elements) yields `none`; the `error_df` setter turns that exception into an
empty dataframe. -/
def errorListOfFault (v : JVal) : Option (List Row) :=
  match v with
  | .obj fkvs =>
    match lookupJ fkvs "Error" with
    | some (.arr errs) => mapMO objOfJ errs
    | _ => none
  | _ => none

/-- The keys of a fault item (a decoded dict). -/
def keysOf (kvs : List (String × JVal)) : List String := kvs.map Prod.fst

/-- `cols = [i for i in fault_df.columns if i != 'Fault']`: the union of the
fault items' top-level keys, minus 'Fault'.  `pd.DataFrame` forms the column
union in first-appearance order. -/
def colsOf (items : List (List (String × JVal))) : List String :=
  ((items.flatMap keysOf).dedup).filter (fun c => c ≠ "Fault")

/-- The per-column attachment `if row[col]: df[col] = row[col]` performed for
one enclosing item on one flattened error row.  A key absent from this item
(but present in another, hence in `cols`) reads as NaN, which is truthy in
Python, so the column is attached as a null; a key that is present is
attached exactly when its value is truthy — in particular an explicit JSON
`null` sibling is skipped, because `pd.DataFrame` preserves `None` (falsy)
in object-dtype columns and only missing keys become the truthy NaN. -/
def siblingStep (item : List (String × JVal)) (row : Row) (c : String) : Row :=
  match lookupJ item c with
  | none => setColJ row c .null
  | some v => if truthyJ v then setColJ row c v else row

/-- Attach all sibling columns of one enclosing item to one error row. -/
def attachSiblings (cols : List String) (item : List (String × JVal))
    (base : Row) : Row :=
  cols.foldl (siblingStep item) base

/-- The rows contributed by a single fault item: one per elementary error,
each with the item's sibling columns attached. -/
def itemRows (cols : List String) (item : List (String × JVal)) :
    Option (List Row) := do
  let fault ← lookupJ item "Fault"
  let errs ← errorListOfFault fault
  pure (errs.map (attachSiblings cols item))

/-- `QBOErrorHandler.get_error_df`.  Succeeds (some rows) on well-shaped fault
lists; any input on which the pandas pipeline would raise yields `none`, which
the `error_df` setter's exception handler turns into an empty dataframe. -/
def get_error_df (faults : List JVal) : Option (List Row) := do
  let items ← mapMO objOfJ faults
  let cols := colsOf items
  let groups ← mapMO (itemRows cols) items
  pure groups.flatten

/-- The `error_df` rows finally held by the handler for a response body:
extraction composed with flattening, with the exception path collapsing to an
empty dataframe. -/
def errorRows (data : JVal) : List Row :=
  (get_error_df (get_list_of_faults data)).getD []

/-! ## Classification predicates (errors.py properties) -/

/-- Does the row's 'code' cell equal the given string? -/
def rowCodeEq (row : Row) (s : String) : Bool :=
  match lookupJ row "code" with
  | some v => isStrVal v s
  | none => false

/-- `error_df.code.isin(codes)` for one row (NaN and non-string cells match
nothing). -/
def rowCodeIn (codes : List String) (row : Row) : Bool :=
  codes.any (rowCodeEq row)

/-- `error_df.Detail.fillna('').str.contains(phrase)` for one row: a missing
or NaN cell becomes the empty string. -/
def rowDetailContains (phrase : String) (row : Row) : Bool :=
  match lookupJ row "Detail" with
  | some (.str s) => containsSubstr s phrase
  | _ => false

/-- `col in error_df.columns`: the dataframe has the column iff some row
carries it. -/
def hasColumn (rows : List Row) (c : String) : Bool :=
  rows.any (fun r => (lookupJ r c).isSome)

/-- The deleted-by-another-user phrase tested by `has_caching_errors`. -/
def cachingPhrase : String := "Another user has deleted this transaction"

/-- The wait-and-retry phrase tested by `has_suspected_transient_errors`. -/
def transientPhrase : String := "Please wait a few minutes and try again"

/-- `QBOErrorHandler.has_caching_errors`. -/
def has_caching_errors (rows : List Row) : Bool :=
  if decide (rows.length > 0) && hasColumn rows "code" &&
      rows.any (rowCodeIn CACHING_ERROR_CODES) then
    if rows.any (fun r => rowCodeEq r "5010") then true
    else if hasColumn rows "Detail" then
      rows.any (rowDetailContains cachingPhrase)
    else false
  else false

/-- `QBOErrorHandler.has_suspected_transient_errors`. -/
def has_suspected_transient_errors (rows : List Row) : Bool :=
  if decide (rows.length < 1) || !hasColumn rows "code" then false
  else if rows.any (rowCodeIn BUSINESS_VALIDATION_ERROR_CODES) &&
      hasColumn rows "Detail" then
    rows.any (fun r =>
      rowCodeIn BUSINESS_VALIDATION_ERROR_CODES r &&
      rowDetailContains transientPhrase r)
  else if rows.any (rowCodeIn OTHER_SUSPECTED_TRANSIENT_ERROR_CODES) then true
  else false

/-- `QBOErrorHandler.has_authorization_errors`. -/
def has_authorization_errors (data : JVal) : Bool :=
  match data with
  | .obj kvs =>
    match lookupJ kvs "x_error_reason" with
    | some v => isStrVal v "user_not_in_realm"
    | none => false
  | _ => false

/-- `QBOErrorHandler.has_feature_permission_errors`. -/
def has_feature_permission_errors (status : Option Nat) (rows : List Row) :
    Bool :=
  if status != some 400 then false
  else if !hasColumn rows "code" then false
  else rows.any (fun r => rowCodeEq r "5020")

/-- `QBOErrorHandler.error_slug` (only meaningful when a response with a URL
is present, which holds whenever the feature-permission branch is reached). -/
def error_slug (hasFeature : Bool) (url : Option String) : String :=
  if hasFeature then
    if containsSubstr (url.getD "") "BudgetVsActuals" then
      "qbo-api-error-permission-denied-bva"
    else
      "qbo-api-error-permission-denied-unspecified"
  else "qbo-api-error-unspecified"

/-- The single decision computed per response (spec section 3's
ErrorDecision), following `resolve`'s if/elif priority order. -/
inductive ErrorDecision where
  | Caching
  | TransientBusinessValidation
  | Authorization
  | FeaturePermission
  | NoDecision
  deriving DecidableEq, Repr

/-- The response metadata `resolve` consults: HTTP status code and request
URL (both absent when the handler was built from `response_data` alone) and
the decoded body. -/
structure RespCtx where
  status : Option Nat
  url : Option String
  responseData : JVal

/-- The classifier's decision for a response, i.e. which branch of
`QBOErrorHandler.resolve`'s if/elif chain fires (first match wins). -/
def decisionOf (ctx : RespCtx) : ErrorDecision :=
  let rows := errorRows ctx.responseData
  if has_caching_errors rows then .Caching
  else if has_suspected_transient_errors rows then .TransientBusinessValidation
  else if has_authorization_errors ctx.responseData then .Authorization
  else if has_feature_permission_errors ctx.status rows then .FeaturePermission
  else .NoDecision

/-- Observable actions of `QBOErrorHandler.resolve`, in program order:
collaborator calls and raised exceptions, with the fields they carry.
Logging calls are omitted. -/
inductive REvent where
  | restoreCache (daysAgo : Nat) (ignoreCdcLoad : Bool)
  | createTicket (userNotInRealm : Bool)
  | raiseCaching (name code detail : Option JVal)
  | raiseTransient (name code detail : Option JVal)
  | raiseApiError (slug : String)

/-- The first `error_df` row whose code is in `CACHING_ERROR_CODES`
(`error_df.loc[...isin...].iloc[0]`). -/
def firstCachingFault (rows : List Row) : Option Row :=
  (rows.filter (rowCodeIn CACHING_ERROR_CODES)).head?

/-- The first `error_df` row whose code is in
`BUSINESS_VALIDATION_ERROR_CODES`. -/
def firstBusinessFault (rows : List Row) : Option Row :=
  (rows.filter (rowCodeIn BUSINESS_VALIDATION_ERROR_CODES)).head?

/-- `QBOErrorHandler.resolve` as an event trace.  The try/except wrappers in
the source only guard import and logging failures; with those collaborators
available the `else:` blocks run, which is what is modelled.  The caching
branch rolls the cache back `rollback_days = 40` days with
`ignore_cdc_load=True` and then raises a `CachingError` carrying the first
matching fault's Detail (message), Message (name) and code; the transient
branch raises a `SuspectedTransientError` likewise; the authorization branch
only creates a disconnection ticket and raises nothing. -/
def resolve (ctx : RespCtx) : List REvent :=
  let rows := errorRows ctx.responseData
  if has_caching_errors rows then
    let err := (firstCachingFault rows).getD []
    [.restoreCache 40 true,
     .raiseCaching (lookupJ err "Message") (lookupJ err "code")
       (lookupJ err "Detail")]
  else if has_suspected_transient_errors rows then
    let err := (firstBusinessFault rows).getD []
    [.raiseTransient (lookupJ err "Message") (lookupJ err "code")
       (lookupJ err "Detail")]
  else if has_authorization_errors ctx.responseData then
    [.createTicket true]
  else if has_feature_permission_errors ctx.status rows then
    [.raiseApiError (error_slug true ctx.url)]
  else []

/-! ## OAuth2 token lifecycle (qba.py `QBAuth2`) -/

/-- The persisted client credential dict (the Google Cloud bucket's
`client_credentials`).  Values are `Option String` because Python may store
`None`; `get` returns `None` both for a missing key and a stored `None`. -/
abbrev Store := List (String × Option String)

/-- First-match lookup of a raw store entry. -/
def lookupStore : Store → String → Option (Option String)
  | [], _ => none
  | (k, v) :: rest, key => if k = key then some v else lookupStore rest key

/-- Python `store.get(key)`: missing keys and stored `None` both read as
`None`. -/
def getStore (st : Store) (k : String) : Option String :=
  (lookupStore st k).join

/-- `d[key] = value` on a credential dict. -/
def setStore (st : Store) (k : String) (v : Option String) : Store :=
  (st.filter (fun p => p.1 ≠ k)) ++ [(k, v)]

/-- Python `d.update(new)`. -/
def dictUpdate (st : Store) (new : Store) : Store :=
  new.foldl (fun acc p => setStore acc p.1 p.2) st

/-- qba.py: `CLIENT_CREDENTIAL_KEYS`. -/
def CLIENT_CREDENTIAL_KEYS : List String :=
  ["access_token", "company_id", "expires_at", "refresh_token", "rt_acquired_at"]

/-- `QBAuth2._update_credentials`: keep only the client credential keys of
the stored dict, merge the new values in, and write the result back. -/
def update_credentials (store : Store) (new : Store) : Store :=
  dictUpdate (store.filter (fun p => CLIENT_CREDENTIAL_KEYS.contains p.1)) new

/-- The mutable state of a `QBAuth2` instance plus the shared credential
store it talks to.  The static app fields (client_id, client_secret,
callback_url, verbosity, minor API version) are constants with no bearing on
the claims and are omitted.  `sessionAccessToken` / `sessionRefreshToken`
mirror the `intuitlib` AuthClient's own token attributes. -/
structure AuthState where
  access_token : Option String
  refresh_token : Option String
  realm_id : Option String
  expires_at : Option String
  rt_acquired_at : Option String
  auth_client_error_retry_count : Nat
  last_call_was_unauthorized : Option Bool
  loggedInAttr : Bool
  new_token : Bool
  new_refresh_token : Bool
  sessionAccessToken : Option String
  sessionRefreshToken : Option String
  store : Store
  deriving DecidableEq, Repr

/-- Python truthiness of an optional string attribute (`if self.expires_at`). -/
def truthyS : Option String → Bool
  | none => false
  | some s => !s.isEmpty

/-- `QBAuth2.logged_in`: false whenever the last call was unauthorized
(`== True`; the initial `None` does not count), else the `_logged_in`
attribute. -/
def logged_in (st : AuthState) : Bool :=
  if st.last_call_was_unauthorized == some true then false else st.loggedInAttr

/-- `QBAuth2.active_credentials`. -/
def active_credentials (st : AuthState) : Store :=
  [("access_token", st.access_token),
   ("refresh_token", st.refresh_token),
   ("expires_at", st.expires_at),
   ("company_id", st.realm_id)]

/-- `QBAuth2.save_new_tokens`.  Runs only when `new_token` is set:
`expires_at` becomes the 55-minute stamp (passed in for `str(utcnow() +
timedelta(minutes=55))`), the active credentials are written back, and
`rt_acquired_at` (the `str(utcnow())` stamp, passed in) is added to the
written dict only when `new_refresh_token` is set; both flags are then
cleared. -/
def save_new_tokens (st : AuthState) (expStamp rtStamp : String) : AuthState :=
  if st.new_token then
    let st1 := { st with expires_at := some expStamp }
    let newCreds := active_credentials st1
    let newCreds :=
      if st1.new_refresh_token then newCreds ++ [("rt_acquired_at", some rtStamp)]
      else newCreds
    { st1 with
      store := update_credentials st1.store newCreds,
      new_token := false,
      new_refresh_token := false }
  else st

/-- `QBAuth2.reload_credentials` followed by
`_refresh_credential_attributes`: re-read the credential fields from the
shared store. -/
def reload_credentials (st : AuthState) : AuthState :=
  { st with
    access_token := getStore st.store "access_token",
    refresh_token := getStore st.store "refresh_token",
    realm_id := getStore st.store "company_id",
    expires_at := getStore st.store "expires_at",
    rt_acquired_at := getStore st.store "rt_acquired_at" }

/-- `QBAuth2.fixed_by_reloading_credentials`: reload from the store, and if
the reloaded expiry is truthy and newer than the remembered one (or there was
none), push any token that now differs onto the session, reporting whether
anything changed. -/
def fixed_by_reloading_credentials (st : AuthState) : AuthState × Bool :=
  let oldExpires := st.expires_at
  let st := reload_credentials st
  if !truthyS st.expires_at then (st, false)
  else if (truthyS oldExpires &&
            strLt (oldExpires.getD "") (st.expires_at.getD "")) ||
          !truthyS oldExpires then
    let (st, fixed) :=
      if st.access_token ≠ st.sessionAccessToken then
        ({ st with sessionAccessToken := st.access_token }, true)
      else (st, false)
    let (st, fixed) :=
      if st.refresh_token ≠ st.sessionRefreshToken then
        ({ st with sessionRefreshToken := st.refresh_token }, true)
      else (st, fixed)
    (st, fixed)
  else (st, false)

/-- What `get_latest_tokens_from_log` returned: the token fields of the most
recent successful exchange in the GCP token log (all `None` when no entry was
found). -/
structure LogTokens where
  access_token : Option String
  refresh_token : Option String
  expires_at : Option String
  deriving DecidableEq, Repr

/-- `QBAuth2.fixed_by_loading_from_log`: adopt the newest logged tokens when
they exist, differ from ours, and are not older than our expiry; on adoption
the merged credentials are persisted to the store.  (When an entry exists its
`expires_at` is always populated, so the `None`-versus-string comparison that
would raise in Python is unreachable and modelled as no fix.) -/
def fixed_by_loading_from_log (st : AuthState) (logTokens : LogTokens) :
    AuthState × Bool :=
  let lat := logTokens.access_token
  let lrt := logTokens.refresh_token
  let lexp := logTokens.expires_at
  let okExpiry :=
    !truthyS st.expires_at ||
      (match lexp, st.expires_at with
       | some le, some se => !strLt le se
       | _, _ => false)
  if truthyS lat && (lat != st.access_token) && okExpiry then
    let st := { st with
      access_token := lat,
      expires_at := lexp,
      sessionAccessToken := lat }
    let st :=
      if lrt ≠ st.refresh_token then
        { st with refresh_token := lrt, sessionRefreshToken := lrt }
      else st
    ({ st with store := update_credentials st.store (active_credentials st) },
     true)
  else (st, false)

/-- The provider-side outcome of one `session.refresh()` call (the actual
token exchange with Intuit). -/
inductive RefreshOutcome where
  | success (newAccessToken newRefreshToken : String)
  | authClientError
  deriving DecidableEq, Repr

/-- Environment for one `refresh()` attempt: what the token endpoint does,
what the audit log holds, and the wall-clock strings the method would take
from `datetime.utcnow()` (`now` for the false-positive comparison, `expStamp`
for `utcnow()+55min`, `rtStamp` for the `rt_acquired_at` stamp). -/
structure RefreshEnv where
  outcome : RefreshOutcome
  logTokens : LogTokens
  now : String
  expStamp : String
  rtStamp : String
  deriving DecidableEq, Repr

/-- Result of a refresh call: the state afterwards, whether an
`AuthClientError` propagated, and how many token exchanges
(`session.refresh()` calls) were performed. -/
structure RefreshResult where
  state : AuthState
  raised : Bool
  exchanges : Nat
  deriving DecidableEq, Repr

/-- The false-positive guard opening `QBAuth2.refresh`:
`auth_client_error_retry_count == 0 and self.expires_at and self.expires_at
>= str(datetime.datetime.utcnow())`. -/
def refreshGuard (st : AuthState) (now : String) : Bool :=
  (st.auth_client_error_retry_count == 0) && truthyS st.expires_at &&
    strLe now (st.expires_at.getD "")

/-- One un-decorated execution of `QBAuth2.refresh`.  If the false-positive
guard fires, the retry counter is incremented and the method returns without
touching the session.  Otherwise `session.refresh()` runs: on success the
counter resets, the new tokens are adopted and persisted via
`save_new_tokens`; on `AuthClientError` the unauthorized flag is set, the two
reconciliation fallbacks run in order, and only if both fail does the
exception propagate (after incrementing the counter). -/
def refreshOnce (st : AuthState) (env : RefreshEnv) : RefreshResult :=
  if refreshGuard st env.now then
    ⟨{ st with
        auth_client_error_retry_count := st.auth_client_error_retry_count + 1 },
     false, 0⟩
  else
    match env.outcome with
    | .success newAT newRT =>
      let st := { st with
        last_call_was_unauthorized := some false,
        auth_client_error_retry_count := 0,
        new_token := true,
        sessionAccessToken := some newAT,
        sessionRefreshToken := some newRT }
      let st := { st with
        access_token := st.sessionAccessToken,
        refresh_token := st.sessionRefreshToken }
      ⟨save_new_tokens st env.expStamp env.rtStamp, false, 1⟩
    | .authClientError =>
      let st := { st with last_call_was_unauthorized := some true }
      let (st, fixedReload) := fixed_by_reloading_credentials st
      if fixedReload then
        (⟨{ st with auth_client_error_retry_count := 0 }, false, 1⟩)
      else
        let (st, fixedLog) := fixed_by_loading_from_log st env.logTokens
        if fixedLog then
          (⟨{ st with auth_client_error_retry_count := 0 }, false, 1⟩)
        else
          ⟨{ st with
              auth_client_error_retry_count :=
                st.auth_client_error_retry_count + 1 },
           true, 1⟩

/-- The `@retry(max_tries=3, delay_secs=5, exceptions=(AuthClientError,))`
decorator around `refresh` (finoptimal.utilities.retry, external to this
repository).  Modelled from the spec: re-invoke the wrapped function on the
listed exception up to `max_tries` total attempts, then let it propagate. -/
def refreshLoop (envs : Nat → RefreshEnv) : Nat → Nat → AuthState →
    RefreshResult
  | 0, _, st => ⟨st, true, 0⟩
  | 1, i, st => refreshOnce st (envs i)
  | fuel + 2, i, st =>
    let r := refreshOnce st (envs i)
    if r.raised then
      let r2 := refreshLoop envs (fuel + 1) (i + 1) r.state
      ⟨r2.state, r2.raised, r.exchanges + r2.exchanges⟩
    else r

/-- `QBAuth2.refresh` as callers see it: the method body under its retry
decorator (3 attempts on `AuthClientError`). -/
def refresh (st : AuthState) (envs : Nat → RefreshEnv) : RefreshResult :=
  refreshLoop envs 3 0 st

/-! ## Request dispatch and retry (qba.py `QBAuth2.request`, qbs.py) -/

/-- What the HTTP transport does for one `requests.request` call: either the
transport itself raises, or a response with a status code, a JSON-decoded
body (`none` when the body is not valid JSON) and the raw text arrives. -/
inductive HttpEvent where
  | transportRaise
  | resp (status : Nat) (body : Option JVal) (raw : String)

/-- An HTTP response as the wrapper sees it. -/
structure HttpResp where
  status : Nat
  body : Option JVal
  raw : String

/-- The exceptions that can escape `QBS._basic_call`'s body (and that its
bare `except` retry wrapper catches): `UnauthorizedError` and
`RateLimitError` from qba.py, `AuthClientError` escaping `refresh`, a
transport failure, the `ConnectionError(error_message)` raised for an
unsupported status (carrying the JSON-decoded body when it parses, else the
raw text), and the `response.json()` decode failure on a 200. -/
inductive BCException where
  | unauthorized
  | rateLimit
  | authClientError
  | transportFail
  | connectionError (parsed : Option JVal) (raw : String)
  | jsonDecodeError

/-- One un-decorated execution of `QBAuth2.request` (qba.py lines 380-462),
given what the transport returns and the environments any inner `refresh`
would see.  On 401 it refreshes, sets `last_call_was_unauthorized = True` and
raises `UnauthorizedError` (or lets a reconciliation-exhausted
`AuthClientError` escape); on every other status it sets the flag to False
first, then raises `RateLimitError` on 429 or returns the response. -/
def requestStep (st : AuthState) (ev : HttpEvent) (renvs : Nat → RefreshEnv) :
    AuthState × Except BCException HttpResp :=
  match ev with
  | .transportRaise => (st, .error .transportFail)
  | .resp status body raw =>
    if status == 401 then
      let r := refresh st renvs
      if r.raised then (r.state, .error .authClientError)
      else
        ({ r.state with last_call_was_unauthorized := some true },
         .error .unauthorized)
    else
      let st := { st with last_call_was_unauthorized := some false }
      if status == 429 then (st, .error .rateLimit)
      else (st, .ok ⟨status, body, raw⟩)

/-- Executor state: the auth session plus a cursor into the stream of
transport events (each `requests.request` call consumes the next one). -/
structure ExecState where
  auth : AuthState
  nextEvent : Nat
  deriving Repr

/-- The `@retry(max_tries=4, exceptions=(UnauthorizedError,))` decorator
around `QBAuth2.request` (finoptimal.utilities.retry, external to this
repository).  Modelled from the spec: re-invoke the wrapped call on
`UnauthorizedError` only, up to `max_tries` total attempts; every other
exception propagates immediately. -/
def uRetryLoop (evs : Nat → HttpEvent) (renvs : Nat → Nat → RefreshEnv) :
    Nat → ExecState → ExecState × Except BCException HttpResp
  | 0, es => (es, .error .unauthorized)
  | fuel + 1, es =>
    let (st, r) := requestStep es.auth (evs es.nextEvent) (renvs es.nextEvent)
    let es := ExecState.mk st (es.nextEvent + 1)
    match r with
    | .error .unauthorized =>
      if fuel == 0 then (es, .error .unauthorized)
      else uRetryLoop evs renvs fuel es
    | r => (es, r)

/-- The decorated `QBAuth2.request`: up to 4 attempts on
`UnauthorizedError`. -/
def qbaRequest (evs : Nat → HttpEvent) (renvs : Nat → Nat → RefreshEnv)
    (es : ExecState) : ExecState × Except BCException HttpResp :=
  uRetryLoop evs renvs 4 es

/-- The value `QBS._basic_call` returns to its caller. -/
inductive BasicOutcome where
  | jsonResult (v : JVal)
  | pdfResponse
  | textResult (s : String)
  | retryWithNewToken

/-- The response surfacing at the end of `QBS._basic_call` (qbs.py lines
358-381): only status 200 returns data to the caller (JSON body, the PDF
response, or raw text depending on the headers chosen for the call); every
other status raises `ConnectionError(error_message)` where `error_message`
is the JSON-decoded body when it parses and the raw text otherwise.  No
error classifier is consulted anywhere on this path. -/
def basicCallHandleResponse (resp : HttpResp) (acceptJson ctypePdf : Bool) :
    Except BCException BasicOutcome :=
  if [200].contains resp.status then
    if acceptJson then
      match resp.body with
      | some v => .ok (.jsonResult v)
      | none => .error .jsonDecodeError
    else if ctypePdf then .ok .pdfResponse
    else .ok (.textResult resp.raw)
  else
    .error (.connectionError resp.body resp.raw)

/-- One execution of `QBS._basic_call`'s body: issue the (retry-decorated)
request, then check `address_new_oauth2_token` — in this revision
`QBAuth2.refresh` saves new tokens immediately, so `qba.new_token` is false
whenever it started false and the re-issue branch (modelled as the
`retryWithNewToken` marker) is unreachable — and finally surface the
response. -/
def basicCallAttempt (evs : Nat → HttpEvent) (renvs : Nat → Nat → RefreshEnv)
    (acceptJson ctypePdf : Bool) (es : ExecState) :
    ExecState × Except BCException BasicOutcome :=
  let (es, r) := qbaRequest evs renvs es
  match r with
  | .error e => (es, .error e)
  | .ok resp =>
    if es.auth.new_token then (es, .ok .retryWithNewToken)
    else (es, basicCallHandleResponse resp acceptJson ctypePdf)

/-- The result of a full `_basic_call` under its `@retry()` wrapper: final
executor state, returned value or propagated exception, the sleeps performed
between tries (in milliseconds), and how many times the body ran. -/
structure BasicCallRun where
  es : ExecState
  result : Except BCException BasicOutcome
  sleepsMs : List Nat
  bodyRuns : Nat
  classifierInvocations : Nat

/-- qbs.py's local `retry()` decorator (`max_tries=2, delay_secs=0.2`),
exactly as written: catch any exception, decrement `tries`, and when tries
remain sleep `delay_secs * attempts` seconds (so the delay grows linearly
with the attempt count, despite the docstring's mention of a geometric
`drag_factor` that this revision does not implement) before re-running.
`triesLeft` counts the remaining tries; sleeps are recorded in
milliseconds.  `classifierInvocations` counts constructions of a
`QBOErrorHandler` (the error classifier) during the run: no code path of
this revision's `_basic_call` builds one or calls `resolve`, so every
terminal case below records zero. -/
def qbsRetryLoop (evs : Nat → HttpEvent) (renvs : Nat → Nat → RefreshEnv)
    (acceptJson ctypePdf : Bool) :
    Nat → Nat → List Nat → ExecState → BasicCallRun
  | 0, attempts, sleeps, es => ⟨es, .error .transportFail, sleeps, attempts, 0⟩
  | triesLeft + 1, attempts, sleeps, es =>
    let (es, r) := basicCallAttempt evs renvs acceptJson ctypePdf es
    match r with
    | .ok o => ⟨es, .ok o, sleeps, attempts + 1, 0⟩
    | .error e =>
      let attempts := attempts + 1
      if triesLeft == 0 then ⟨es, .error e, sleeps, attempts, 0⟩
      else
        qbsRetryLoop evs renvs acceptJson ctypePdf triesLeft attempts
          (sleeps ++ [200 * attempts]) es

/-- `QBS._basic_call` as callers see it: the body under the local `@retry()`
wrapper, which allows `max_tries = 2` body runs with a 0.2-second base
delay. -/
def basicCall (evs : Nat → HttpEvent) (renvs : Nat → Nat → RefreshEnv)
    (acceptJson ctypePdf : Bool) (es : ExecState) : BasicCallRun :=
  qbsRetryLoop evs renvs acceptJson ctypePdf 2 0 [] es

/-- `QBAuth2.handle_authorized_callback_url`, with the URL already split into
its `code`/`realmId` query parameters and the `get_bearer_token` exchange
summarised by the session tokens it installs: adopt the realm and the
session's new tokens and flag both as new. -/
def handle_authorized_callback (st : AuthState) (realmId : String)
    (sessionAT sessionRT : String) : AuthState :=
  { st with
    realm_id := some realmId,
    access_token := some sessionAT,
    refresh_token := some sessionRT,
    sessionAccessToken := some sessionAT,
    sessionRefreshToken := some sessionRT,
    new_token := true,
    new_refresh_token := true }

/-! ## Auxiliary observations on traces and batches -/

/-- Is the `resolve` event a call to the disconnection-ticket collaborator? -/
def isTicketCreation : REvent → Bool
  | .createTicket _ => true
  | _ => false

/-- Is the `resolve` event a raised exception? -/
def isRaiseEvent : REvent → Bool
  | .raiseCaching _ _ _ => true
  | .raiseTransient _ _ _ => true
  | .raiseApiError _ => true
  | _ => false

/-- The status code carried by a transport event, if any. -/
def statusOfEvent : HttpEvent → Option Nat
  | .transportRaise => none
  | .resp s _ _ => some s

/-- A batch response body wrapping the given items. -/
def mkBatchBody (items : List JVal) : JVal :=
  .obj [("BatchItemResponse", .arr items)]

/-- A short elementary error record. -/
def errShort (msg det code : String) : JVal :=
  .obj [("Message", .str msg), ("Detail", .str det), ("code", .str code),
        ("element", .str "")]

/-- A one-item batch carrying a stale-object (5010) fault with a non-empty
batch-item id. -/
def staleBatchBody : JVal :=
  mkBatchBody
    [.obj [("Fault", .obj [("Error", .arr [errShort "Stale Object Error" "stale" "5010"]),
                           ("type", .str "ValidationFault")]),
           ("bId", .str "Invoice|1|x|")]]

/-- A 200 response carrying `staleBatchBody`. -/
def staleCtx : RespCtx := ⟨some 200, none, staleBatchBody⟩

/-- A single-fault response carrying the 6000 code with the wait-and-retry
phrase in its detail. -/
def busValBody : JVal :=
  .obj [("Fault", .obj [("Error", .arr
            [errShort "A business validation error has occurred"
              "Please wait a few minutes and try again." "6000"]),
         ("type", .str "ValidationFault")]),
        ("time", .str "t1")]

/-- A 200 response carrying `busValBody`. -/
def busValCtx : RespCtx := ⟨some 200, none, busValBody⟩

/-- The realm-mismatch body from the provider (non-fault-shaped). -/
def notInRealmBody : JVal :=
  .obj [("error_description", .str "Unauthorized Request"),
        ("x_error_reason", .str "user_not_in_realm"),
        ("error", .str "invalid_grant")]

/-- A response carrying `notInRealmBody`. -/
def notInRealmCtx : RespCtx := ⟨some 200, none, notInRealmBody⟩

/-- A steady-state authorized session: tokens present, counters clear, store
in sync. -/
def stSteady : AuthState :=
  { access_token := some "at0", refresh_token := some "rt0",
    realm_id := some "realm0", expires_at := some "2025-01-01 00:00:00",
    rt_acquired_at := some "2020-01-01 00:00:00",
    auth_client_error_retry_count := 0, last_call_was_unauthorized := none,
    loggedInAttr := true, new_token := false, new_refresh_token := false,
    sessionAccessToken := some "at0", sessionRefreshToken := some "rt0",
    store := [("access_token", some "at0"), ("company_id", some "realm0"),
              ("expires_at", some "2025-01-01 00:00:00"),
              ("refresh_token", some "rt0"),
              ("rt_acquired_at", some "2020-01-01 00:00:00")] }

/-- A refresh environment in which the provider exchange succeeds and rotates
both tokens; the wall clock sits after `stSteady`'s expiry. -/
def envRotate : RefreshEnv :=
  { outcome := .success "at1" "rt1",
    logTokens := ⟨none, none, none⟩,
    now := "2025-06-01 00:00:00",
    expStamp := "2025-06-01 00:55:00",
    rtStamp := "2025-06-01 00:00:00" }

/-- A refresh environment whose wall clock sits before `stSteady`'s expiry
(the false-positive window). -/
def envEarly : RefreshEnv := { envRotate with now := "2024-06-01 00:00:00" }

/-- A transport that always answers 429. -/
def evsAll429 : Nat → HttpEvent := fun _ => .resp 429 none "rate limited"

/-- A transport that always raises (generic connection failure). -/
def evsAllConnFail : Nat → HttpEvent := fun _ => .transportRaise

/-- A constant refresh-environment stream (no 401 occurs in the runs that
use it). -/
def renvsConst : Nat → Nat → RefreshEnv := fun _ _ => envRotate

/-- The `_basic_call` run against an all-429 transport. -/
def run429 : BasicCallRun := basicCall evsAll429 renvsConst true false ⟨stSteady, 0⟩

/-- The `_basic_call` run against an always-failing transport (the generic
connection failure baseline). -/
def runConnFail : BasicCallRun :=
  basicCall evsAllConnFail renvsConst true false ⟨stSteady, 0⟩

/-- Claim C8's delay sentence at the two baseline runs: rate-limited attempts
are retried and every rate-limit retry delay strictly exceeds every
generic-connection-failure retry delay. -/
def rateLimitDelayExceedsGeneric : Prop :=
  run429.sleepsMs ≠ [] ∧ runConnFail.sleepsMs ≠ [] ∧
    ∀ d ∈ run429.sleepsMs, ∀ d2 ∈ runConnFail.sleepsMs, d > d2

/-- A fault-shaped JSON body (stale-object fault), used to show responses
with unsupported status codes never reach the classifier. -/
def faultShapedBody : JVal :=
  .obj [("Fault", .obj [("Error", .arr [errShort "Stale Object Error" "stale" "5010"]),
                        ("type", .str "ValidationFault")])]

/-- Claim C5's surfacing sentence at one concrete input: a 429 response
carrying fault-shaped JSON is surfaced as a generic ConnectionError carrying
the body. -/
def status429SurfacedAsConnectionError : Prop :=
  (basicCall (fun _ => .resp 429 (some faultShapedBody) "rl-raw") renvsConst
      true false ⟨stSteady, 0⟩).result =
    .error (.connectionError (some faultShapedBody) "rl-raw")

/-- Claim C7's sentence (rt_acquired_at is persisted exactly when the
refresh_token changed) instantiated at one refresh execution. -/
def rtStampWrittenIffChanged (st : AuthState) (env : RefreshEnv) : Prop :=
  (refreshOnce st env).state.refresh_token ≠ st.refresh_token ↔
    getStore (refreshOnce st env).state.store "rt_acquired_at" =
      some env.rtStamp

/-! ## Helper lemmas -/

theorem lookupJ_of_rowCodeEq {r : Row} {c : String}
    (h : rowCodeEq r c = true) : (lookupJ r "code").isSome = true := by
  unfold rowCodeEq at h
  cases hl : lookupJ r "code" with
  | none => rw [hl] at h; exact absurd h (by simp)
  | some v => simp

theorem lookupJ_of_detailContains {r : Row} {p : String}
    (h : rowDetailContains p r = true) : (lookupJ r "Detail").isSome = true := by
  unfold rowDetailContains at h
  cases hl : lookupJ r "Detail" with
  | none => rw [hl] at h; exact absurd h (by simp)
  | some v => simp

theorem rowCodeIn_of_eq {codes : List String} {r : Row} {c : String}
    (hc : c ∈ codes) (h : rowCodeEq r c = true) : rowCodeIn codes r = true :=
  List.any_eq_true.2 ⟨c, hc, h⟩

theorem rowCodeIn_caching_cases {r : Row}
    (h : rowCodeIn CACHING_ERROR_CODES r = true) :
    rowCodeEq r "5010" = true ∨ rowCodeEq r "610" = true := by
  rcases List.any_eq_true.1 h with ⟨c, hc, heq⟩
  have hc2 : c = "5010" ∨ c = "610" := by
    simpa [CACHING_ERROR_CODES] using hc
  rcases hc2 with h1 | h1 <;> subst h1
  · exact Or.inl heq
  · exact Or.inr heq

theorem rowCodeIn_business_eq {r : Row} :
    rowCodeIn BUSINESS_VALIDATION_ERROR_CODES r = rowCodeEq r "6000" := by
  unfold rowCodeIn BUSINESS_VALIDATION_ERROR_CODES
  simp [List.any_cons]

theorem rowCodeIn_nil {r : Row} :
    rowCodeIn OTHER_SUSPECTED_TRANSIENT_ERROR_CODES r = false := rfl

theorem hasColumn_of_any {rows : List Row} {c : String} {p : Row → Bool}
    (hall : ∀ r, p r = true → (lookupJ r c).isSome = true)
    (h : rows.any p = true) : hasColumn rows c = true := by
  rcases List.any_eq_true.1 h with ⟨r, hr, hp⟩
  exact List.any_eq_true.2 ⟨r, hr, hall r hp⟩

theorem length_pos_of_any {rows : List Row} {p : Row → Bool}
    (h : rows.any p = true) : decide (rows.length > 0) = true := by
  rcases List.any_eq_true.1 h with ⟨r, hr, _⟩
  cases rows with
  | nil => cases hr
  | cons a l => simp

/-- The classification predicate `has_caching_errors` holds exactly when some
flattened fault row has code '5010', or some row has code '610' and some row's
detail text contains the deleted-by-another-user phrase. -/
theorem has_caching_errors_iff (rows : List Row) :
    has_caching_errors rows = true ↔
      rows.any (fun r => rowCodeEq r "5010") = true ∨
        (rows.any (fun r => rowCodeEq r "610") = true ∧
          rows.any (rowDetailContains cachingPhrase) = true) := by
  unfold has_caching_errors
  constructor
  · intro h
    split at h
    case isFalse => cases h
    case isTrue hgate =>
      split at h
      case isTrue h5 => exact Or.inl h5
      case isFalse h5 =>
        split at h
        case isFalse => cases h
        case isTrue hdet =>
          have hC : rows.any (rowCodeIn CACHING_ERROR_CODES) = true := by
            have := hgate
            simp only [Bool.and_eq_true] at this
            exact this.2
          rcases List.any_eq_true.1 hC with ⟨r, hr, hcode⟩
          rcases rowCodeIn_caching_cases hcode with h6 | h6
          · exact Or.inl (List.any_eq_true.2 ⟨r, hr, h6⟩)
          · exact Or.inr ⟨List.any_eq_true.2 ⟨r, hr, h6⟩, h⟩
  · intro h
    have hC : rows.any (rowCodeIn CACHING_ERROR_CODES) = true := by
      rcases h with h5 | ⟨h6, _⟩
      · rcases List.any_eq_true.1 h5 with ⟨r, hr, he⟩
        exact List.any_eq_true.2
          ⟨r, hr, rowCodeIn_of_eq (by simp [CACHING_ERROR_CODES]) he⟩
      · rcases List.any_eq_true.1 h6 with ⟨r, hr, he⟩
        exact List.any_eq_true.2
          ⟨r, hr, rowCodeIn_of_eq (by simp [CACHING_ERROR_CODES]) he⟩
    have hB : hasColumn rows "code" = true := by
      rcases List.any_eq_true.1 hC with ⟨r, hr, hcode⟩
      rcases rowCodeIn_caching_cases hcode with h6 | h6 <;>
        exact List.any_eq_true.2 ⟨r, hr, lookupJ_of_rowCodeEq h6⟩
    have hA : decide (rows.length > 0) = true := length_pos_of_any hC
    rw [if_pos (by rw [hA, hB, hC]; rfl)]
    rcases h with h5 | ⟨h6, hdet⟩
    · rw [if_pos h5]
    · split
      case isTrue => rfl
      case isFalse =>
        have hE : hasColumn rows "Detail" = true :=
          hasColumn_of_any (fun r hp => lookupJ_of_detailContains hp) hdet
        rw [if_pos hE]
        exact hdet

/-- The classification predicate `has_suspected_transient_errors` holds
exactly when some flattened fault row has code '6000' whose own detail text
contains the wait-and-retry phrase. -/
theorem has_suspected_transient_errors_iff (rows : List Row) :
    has_suspected_transient_errors rows = true ↔
      rows.any (fun r =>
        rowCodeEq r "6000" && rowDetailContains transientPhrase r) = true := by
  unfold has_suspected_transient_errors
  have hR : rows.any (rowCodeIn OTHER_SUSPECTED_TRANSIENT_ERROR_CODES) = false := by
    simp [rowCodeIn_nil]
  constructor
  · intro h
    split at h
    case isTrue => cases h
    case isFalse hgate =>
      split at h
      case isTrue hbus =>
        rcases List.any_eq_true.1 h with ⟨r, hr, hp⟩
        refine List.any_eq_true.2 ⟨r, hr, ?_⟩
        rw [← rowCodeIn_business_eq]
        exact hp
      case isFalse =>
        rw [hR] at h
        simp at h
  · intro h
    rcases List.any_eq_true.1 h with ⟨r, hr, hp⟩
    simp only [Bool.and_eq_true] at hp
    have hcode : rowCodeEq r "6000" = true := hp.1
    have hdet : rowDetailContains transientPhrase r = true := hp.2
    have hBus : rows.any (rowCodeIn BUSINESS_VALIDATION_ERROR_CODES) = true := by
      refine List.any_eq_true.2 ⟨r, hr, ?_⟩
      rw [rowCodeIn_business_eq]; exact hcode
    have hB : hasColumn rows "code" = true :=
      List.any_eq_true.2 ⟨r, hr, lookupJ_of_rowCodeEq hcode⟩
    have hE : hasColumn rows "Detail" = true :=
      List.any_eq_true.2 ⟨r, hr, lookupJ_of_detailContains hdet⟩
    have hlen : decide (rows.length < 1) = false := by
      cases rows with
      | nil => cases hr
      | cons a l => simp
    rw [if_neg (by rw [hlen, hB]; simp)]
    rw [if_pos (by rw [hBus, hE]; rfl)]
    refine List.any_eq_true.2 ⟨r, hr, ?_⟩
    rw [rowCodeIn_business_eq]
    rw [hcode, hdet]; rfl

/-! ## Claim C2 -/

/-- C2: a response yields the Caching decision if and only if some extracted
fault row has the stale-object code '5010', or the rows include the
object-not-found code '610' together with a row whose detail text contains
"Another user has deleted this transaction"; in particular any response with
a '5010' fault yields Caching regardless of other faults present. -/
theorem c2_caching_decision_iff (ctx : RespCtx) :
    decisionOf ctx = .Caching ↔
      (errorRows ctx.responseData).any (fun r => rowCodeEq r "5010") = true ∨
        ((errorRows ctx.responseData).any (fun r => rowCodeEq r "610") = true ∧
          (errorRows ctx.responseData).any
            (rowDetailContains cachingPhrase) = true) := by
  rw [← has_caching_errors_iff]
  unfold decisionOf
  constructor
  · intro h
    by_contra hc
    rw [if_neg (by simp [hc])] at h
    split at h <;> try cases h
    split at h <;> try cases h
    split at h <;> cases h
  · intro h
    rw [if_pos h]

/-! ## Claim C4 -/

/-- C4: when the faults do not satisfy the caching condition, the response
yields the TransientBusinessValidation decision if and only if some fault row
has the generic business-validation code '6000' and that same row's detail
text contains "Please wait a few minutes and try again"; a '6000' fault
without the phrase triggers no transient decision. -/
theorem c4_transient_decision_iff (ctx : RespCtx)
    (hnc : has_caching_errors (errorRows ctx.responseData) = false) :
    decisionOf ctx = .TransientBusinessValidation ↔
      (errorRows ctx.responseData).any (fun r =>
        rowCodeEq r "6000" && rowDetailContains transientPhrase r) = true := by
  rw [← has_suspected_transient_errors_iff]
  unfold decisionOf
  rw [if_neg (by simp [hnc])]
  constructor
  · intro h
    by_contra hc
    rw [if_neg (by simp [hc])] at h
    split at h <;> try cases h
    split at h <;> cases h
  · intro h
    rw [if_pos h]

/-- C4 witness: a concrete 6000-with-phrase response is classified
TransientBusinessValidation. -/
theorem c4_witness :
    has_caching_errors (errorRows busValCtx.responseData) = false ∧
      decisionOf busValCtx = ErrorDecision.TransientBusinessValidation :=
  ⟨rfl, (c4_transient_decision_iff busValCtx rfl).2 (by rfl)⟩

/-! ## Claim C3 -/

theorem any_cachingCode_of_has {rows : List Row}
    (h : has_caching_errors rows = true) :
    rows.any (rowCodeIn CACHING_ERROR_CODES) = true := by
  unfold has_caching_errors at h
  split at h
  case isTrue hg =>
    simp only [Bool.and_eq_true] at hg
    exact hg.2
  case isFalse => cases h

theorem decisionOf_eq_caching_iff (ctx : RespCtx) :
    decisionOf ctx = .Caching ↔
      has_caching_errors (errorRows ctx.responseData) = true := by
  unfold decisionOf
  constructor
  · intro h
    by_contra hc
    rw [if_neg (by simp [hc])] at h
    split at h <;> try cases h
    split at h <;> try cases h
    split at h <;> cases h
  · intro h
    rw [if_pos h]

/-- C3: whenever `resolve` reaches the Caching decision there is a first
fault row with a caching code, and the trace is exactly a cache-repair call
with the fixed 40-day lookback (`ignore_cdc_load=True`) followed by the
raised `CachingError` carrying that row's Message, code and Detail — so the
repair always happens before the exception reaches the caller. -/
theorem c3_repair_precedes_caching_raise (ctx : RespCtx)
    (h : decisionOf ctx = .Caching) :
    ∃ err, firstCachingFault (errorRows ctx.responseData) = some err ∧
      resolve ctx =
        [.restoreCache 40 true,
         .raiseCaching (lookupJ err "Message") (lookupJ err "code")
           (lookupJ err "Detail")] := by
  have hc : has_caching_errors (errorRows ctx.responseData) = true :=
    (decisionOf_eq_caching_iff ctx).1 h
  have hany := any_cachingCode_of_has hc
  rcases List.any_eq_true.1 hany with ⟨r, hr, hp⟩
  cases hfil : (errorRows ctx.responseData).filter (rowCodeIn CACHING_ERROR_CODES) with
  | nil =>
    exact absurd hp (by simpa using List.filter_eq_nil_iff.1 hfil r hr)
  | cons e t =>
    refine ⟨e, ?_, ?_⟩
    · unfold firstCachingFault
      rw [hfil]
      rfl
    · simp only [resolve]
      rw [if_pos hc]
      unfold firstCachingFault
      rw [hfil]
      rfl

/-- C3 witness: on the concrete stale-object batch, `resolve` rolls the
cache back 40 days and then raises the CachingError carrying the first
fault's fields. -/
theorem c3_witness :
    decisionOf staleCtx = ErrorDecision.Caching ∧
      resolve staleCtx =
        [REvent.restoreCache 40 true,
         REvent.raiseCaching (some (JVal.str "Stale Object Error"))
           (some (JVal.str "5010")) (some (JVal.str "stale"))] := by
  rcases c3_repair_precedes_caching_raise staleCtx rfl with ⟨err, h1, h2⟩
  have h5 : firstCachingFault (errorRows staleCtx.responseData) =
      some [("Message", JVal.str "Stale Object Error"),
            ("Detail", JVal.str "stale"), ("code", JVal.str "5010"),
            ("element", JVal.str ""), ("bId", JVal.str "Invoice|1|x|")] := rfl
  rw [h5] at h1
  have h4 := Option.some.inj h1
  refine ⟨rfl, ?_⟩
  rw [h2, ← h4]
  rfl

/-! ## Claim C9 -/

/-- C9: a response whose body is a (non-fault-shaped) record with
`x_error_reason == 'user_not_in_realm'` yields the Authorization decision:
`resolve` calls the disconnection-ticket collaborator exactly once and raises
nothing. -/
theorem c9_realm_mismatch_creates_ticket (ctx : RespCtx)
    (hauth : has_authorization_errors ctx.responseData = true)
    (hnf : get_list_of_faults ctx.responseData = []) :
    decisionOf ctx = .Authorization ∧
      resolve ctx = [.createTicket true] ∧
      (resolve ctx).countP isTicketCreation = 1 ∧
      (resolve ctx).countP isRaiseEvent = 0 := by
  have hrows : errorRows ctx.responseData = [] := by
    unfold errorRows
    rw [hnf]
    rfl
  have hres : resolve ctx = [.createTicket true] := by
    simp only [resolve]
    rw [hrows]
    rw [if_neg (by simp [has_caching_errors]),
        if_neg (by simp [has_suspected_transient_errors]),
        if_pos hauth]
  refine ⟨?_, hres, by rw [hres]; rfl, by rw [hres]; rfl⟩
  simp only [decisionOf]
  rw [hrows]
  rw [if_neg (by simp [has_caching_errors]),
      if_neg (by simp [has_suspected_transient_errors]),
      if_pos hauth]

/-- C9 witness: the provider's concrete user_not_in_realm body creates
exactly one disconnection ticket and raises nothing. -/
theorem c9_witness :
    decisionOf notInRealmCtx = ErrorDecision.Authorization ∧
      (resolve notInRealmCtx).countP isTicketCreation = 1 ∧
      (resolve notInRealmCtx).countP isRaiseEvent = 0 := by
  rcases c9_realm_mismatch_creates_ticket notInRealmCtx rfl rfl with ⟨a, _, c, d⟩
  exact ⟨a, c, d⟩

/-! ## Claim C1 -/

/-- C1: invoking `refresh` with `auth_client_error_retry_count == 0` and a
set `expires_at` not earlier than the current time returns without raising,
performs no token exchange with the provider, leaves every token (indeed the
whole state except the counter) unchanged, and increments the retry counter
to 1 — the first suspected false positive is absorbed silently. -/
theorem c1_false_positive_refresh_absorbed (st : AuthState)
    (envs : Nat → RefreshEnv) (e : String)
    (h0 : st.auth_client_error_retry_count = 0)
    (hexp : st.expires_at = some e)
    (hne : e ≠ "")
    (hfut : strLe (envs 0).now e = true) :
    refresh st envs =
      ⟨{ st with auth_client_error_retry_count := 1 }, false, 0⟩ := by
  have hie : e.isEmpty = false := by
    cases hh : e.isEmpty
    · rfl
    · exact absurd ((String.isEmpty_iff e).1 hh) hne
  have hguard : refreshGuard st (envs 0).now = true := by
    unfold refreshGuard truthyS
    rw [hexp, h0]
    simp [hie, hfut]
  have honce : refreshOnce st (envs 0) =
      ⟨{ st with auth_client_error_retry_count := 1 }, false, 0⟩ := by
    unfold refreshOnce
    rw [if_pos hguard]
    simp [h0]
  unfold refresh
  simp [refreshLoop, honce]

/-- C1 witness: the steady state with a wall clock before the cached expiry
absorbs the simulated refresh failure, incrementing only the counter. -/
theorem c1_witness :
    refresh stSteady (fun _ => envEarly) =
      ⟨{ stSteady with auth_client_error_retry_count := 1 }, false, 0⟩ ∧
      stSteady.auth_client_error_retry_count = 0 ∧
      strLe envEarly.now "2025-01-01 00:00:00" = true :=
  ⟨c1_false_positive_refresh_absorbed stSteady (fun _ => envEarly)
      "2025-01-01 00:00:00" rfl rfl (by decide) (by rfl),
   rfl, by rfl⟩

/-! ## Claim C10 -/

theorem fixed_by_reloading_flag (st : AuthState) :
    (fixed_by_reloading_credentials st).1.last_call_was_unauthorized =
      st.last_call_was_unauthorized := by
  unfold fixed_by_reloading_credentials reload_credentials
  dsimp only
  split_ifs <;> rfl

theorem fixed_by_loading_flag (st : AuthState) (lt : LogTokens) :
    (fixed_by_loading_from_log st lt).1.last_call_was_unauthorized =
      st.last_call_was_unauthorized := by
  unfold fixed_by_loading_from_log
  dsimp only
  split_ifs <;> rfl

theorem refreshOnce_raised_flag (st : AuthState) (env : RefreshEnv)
    (h : (refreshOnce st env).raised = true) :
    (refreshOnce st env).state.last_call_was_unauthorized = some true := by
  unfold refreshOnce at h ⊢
  split at h
  case isTrue => simp at h
  case isFalse hg =>
    rw [if_neg hg]
    cases ho : env.outcome with
    | success a b =>
      rw [ho] at h
      simp at h
    | authClientError =>
      rw [ho] at h
      dsimp only at h ⊢
      rcases hfr : fixed_by_reloading_credentials
          { st with last_call_was_unauthorized := some true } with ⟨st2, fixedR⟩
      rw [hfr] at h
      dsimp only at h ⊢
      cases fixedR
      case true => simp at h
      case false =>
        simp only [Bool.false_eq_true, if_false] at h ⊢
        rcases hfl : fixed_by_loading_from_log st2 env.logTokens with ⟨st3, fixedL⟩
        rw [hfl] at h
        dsimp only at h ⊢
        cases fixedL
        case true => simp at h
        case false =>
          simp only [Bool.false_eq_true, if_false] at h ⊢
          have h2 : st2.last_call_was_unauthorized = some true := by
            have hx := fixed_by_reloading_flag
              { st with last_call_was_unauthorized := some true }
            rw [hfr] at hx
            exact hx
          have h3 : st3.last_call_was_unauthorized = st2.last_call_was_unauthorized := by
            have hx := fixed_by_loading_flag st2 env.logTokens
            rw [hfl] at hx
            exact hx
          simp only [h3, h2]

theorem refreshLoop_raised_flag (envs : Nat → RefreshEnv) :
    ∀ (fuel i : Nat) (st : AuthState),
      (refreshLoop envs (fuel + 1) i st).raised = true →
      (refreshLoop envs (fuel + 1) i st).state.last_call_was_unauthorized =
        some true := by
  intro fuel
  induction fuel with
  | zero =>
    intro i st h
    have e : (0 : Nat) + 1 = 1 := rfl
    rw [e] at h ⊢
    simp only [refreshLoop] at h ⊢
    exact refreshOnce_raised_flag st (envs i) h
  | succ f ih =>
    intro i st h
    have e : f + 1 + 1 = f + 2 := rfl
    rw [e] at h ⊢
    simp only [refreshLoop] at h ⊢
    cases hr : (refreshOnce st (envs i)).raised
    · simp [hr] at h
    · rw [hr] at h
      rw [if_pos rfl] at h ⊢
      dsimp only at h ⊢
      exact ih (i + 1) (refreshOnce st (envs i)).state h

theorem refresh_raised_flag (st : AuthState) (envs : Nat → RefreshEnv)
    (h : (refresh st envs).raised = true) :
    (refresh st envs).state.last_call_was_unauthorized = some true :=
  refreshLoop_raised_flag envs 2 0 st h

/-- C10: after a (completed or raising) execution of the low-level
`request` on a response with status `s`, the `last_call_was_unauthorized`
flag is `True` exactly when `s = 401` (set before the unauthorized or
auth-client error escapes); for every other status — including 429 — the
flag is set to `False` before the method returns or raises, so that
`logged_in` again reflects the underlying `_logged_in` attribute after a
single non-401 response. -/
theorem c10_unauthorized_flag_tracks_401 (st : AuthState) (s : Nat)
    (body : Option JVal) (raw : String) (renvs : Nat → RefreshEnv) :
    (s = 401 →
      (requestStep st (.resp s body raw) renvs).1.last_call_was_unauthorized =
        some true) ∧
    (s ≠ 401 →
      (requestStep st (.resp s body raw) renvs).1.last_call_was_unauthorized =
        some false ∧
      (requestStep st (.resp s body raw) renvs).1.loggedInAttr =
        st.loggedInAttr ∧
      logged_in (requestStep st (.resp s body raw) renvs).1 =
        st.loggedInAttr) := by
  constructor
  · intro hs
    subst hs
    unfold requestStep
    cases hr : (refresh st renvs).raised
    · simp [hr]
    · simp [hr, refresh_raised_flag st renvs hr]
  · intro hs
    have hbeq : (s == 401) = false := by
      cases h2 : s == 401
      · rfl
      · exact absurd (eq_of_beq h2) hs
    unfold requestStep
    simp only [hbeq, Bool.false_eq_true, if_false]
    by_cases h9 : (s == 429) = true <;> simp [h9, logged_in]

/-- C10 witness: a 500 response clears the flag (restoring `logged_in`),
while a 401 sets it. -/
theorem c10_witness :
    (requestStep stSteady (.resp 500 none "oops")
        (fun _ => envRotate)).1.last_call_was_unauthorized = some false ∧
      logged_in (requestStep stSteady (.resp 500 none "oops")
        (fun _ => envRotate)).1 = true ∧
      (requestStep stSteady (.resp 401 none "x")
        (fun _ => envRotate)).1.last_call_was_unauthorized = some true := by
  have h1 := c10_unauthorized_flag_tracks_401 stSteady 500 none "oops"
    (fun _ => envRotate)
  have h2 := c10_unauthorized_flag_tracks_401 stSteady 401 none "x"
    (fun _ => envRotate)
  refine ⟨(h1.2 (by decide)).1, ?_, h2.1 rfl⟩
  have h3 := (h1.2 (by decide)).2.2
  rw [h3]
  rfl

/-! ## Claim C7 -/

theorem lookupStore_cons_self {k : String} {v : Option String} {rest : Store} :
    lookupStore ((k, v) :: rest) k = some v := by
  simp [lookupStore]

theorem lookupStore_cons_ne {k1 k : String} {v : Option String} {rest : Store}
    (h : k1 ≠ k) :
    lookupStore ((k1, v) :: rest) k = lookupStore rest k := by
  simp [lookupStore, h]

theorem lookupStore_filter_key {s : Store} {q : String → Bool} {k : String}
    (hq : q k = true) :
    lookupStore (s.filter (fun p => q p.1)) k = lookupStore s k := by
  induction s with
  | nil => rfl
  | cons p rest ih =>
    cases p with
    | mk k1 v =>
      by_cases hk : k1 = k
      · subst hk
        rw [List.filter_cons_of_pos (by simpa using hq)]
        rw [lookupStore_cons_self, lookupStore_cons_self]
      · cases hq1 : q k1
        · rw [List.filter_cons_of_neg (by simp [hq1])]
          rw [ih, lookupStore_cons_ne hk]
        · rw [List.filter_cons_of_pos (by simp [hq1])]
          rw [lookupStore_cons_ne hk, lookupStore_cons_ne hk]
          exact ih

theorem lookupStore_setStore_self (s : Store) (k : String) (v : Option String) :
    lookupStore (setStore s k v) k = some v := by
  unfold setStore
  induction s with
  | nil => rw [List.filter_nil, List.nil_append, lookupStore_cons_self]
  | cons p rest ih =>
    cases p with
    | mk k1 v1 =>
      by_cases hk : k1 = k
      · subst hk
        rw [List.filter_cons_of_neg (by simp)]
        exact ih
      · rw [List.filter_cons_of_pos (by simp [hk])]
        rw [List.cons_append, lookupStore_cons_ne hk]
        exact ih

theorem lookupStore_setStore_ne (s : Store) {k c : String} (v : Option String)
    (hne : k ≠ c) :
    lookupStore (setStore s c v) k = lookupStore s k := by
  unfold setStore
  induction s with
  | nil =>
    rw [List.filter_nil, List.nil_append, lookupStore_cons_ne (Ne.symm hne)]
  | cons p rest ih =>
    cases p with
    | mk k1 v1 =>
      by_cases hk : k1 = c
      · subst hk
        rw [List.filter_cons_of_neg (by simp)]
        rw [ih, lookupStore_cons_ne (Ne.symm hne)]
      · rw [List.filter_cons_of_pos (by simp [hk])]
        rw [List.cons_append]
        by_cases hk2 : k1 = k
        · subst hk2
          rw [lookupStore_cons_self, lookupStore_cons_self]
        · rw [lookupStore_cons_ne hk2, lookupStore_cons_ne hk2]
          exact ih

theorem getStore_setStore_self (s : Store) (k : String) (v : Option String) :
    getStore (setStore s k v) k = v := by
  unfold getStore
  rw [lookupStore_setStore_self]
  rfl

theorem getStore_setStore_ne (s : Store) {k c : String} (v : Option String)
    (hne : k ≠ c) :
    getStore (setStore s c v) k = getStore s k := by
  unfold getStore
  rw [lookupStore_setStore_ne s v hne]

theorem getStore_filter_client_keys (s : Store) {k : String}
    (hk : CLIENT_CREDENTIAL_KEYS.contains k = true) :
    getStore (s.filter (fun p => CLIENT_CREDENTIAL_KEYS.contains p.1)) k =
      getStore s k := by
  unfold getStore
  rw [lookupStore_filter_key hk]

/-- The store after `_update_credentials` with the four active-credential
keys: each of the four reads back its new value, and every other
client-credential key (in particular `rt_acquired_at`) reads back its prior
stored value. -/
theorem getStore_update_credentials4 (base : Store) (a r e c : Option String) :
    getStore (update_credentials base
      [("access_token", a), ("refresh_token", r), ("expires_at", e),
       ("company_id", c)]) "access_token" = a ∧
    getStore (update_credentials base
      [("access_token", a), ("refresh_token", r), ("expires_at", e),
       ("company_id", c)]) "refresh_token" = r ∧
    getStore (update_credentials base
      [("access_token", a), ("refresh_token", r), ("expires_at", e),
       ("company_id", c)]) "expires_at" = e ∧
    getStore (update_credentials base
      [("access_token", a), ("refresh_token", r), ("expires_at", e),
       ("company_id", c)]) "company_id" = c ∧
    getStore (update_credentials base
      [("access_token", a), ("refresh_token", r), ("expires_at", e),
       ("company_id", c)]) "rt_acquired_at" =
      getStore base "rt_acquired_at" := by
  unfold update_credentials dictUpdate
  simp only [List.foldl_cons, List.foldl_nil]
  refine ⟨?_, ?_, ?_, ?_, ?_⟩
  · rw [getStore_setStore_ne _ _ (by decide), getStore_setStore_ne _ _ (by decide),
        getStore_setStore_ne _ _ (by decide), getStore_setStore_self]
  · rw [getStore_setStore_ne _ _ (by decide), getStore_setStore_ne _ _ (by decide),
        getStore_setStore_self]
  · rw [getStore_setStore_ne _ _ (by decide), getStore_setStore_self]
  · rw [getStore_setStore_self]
  · rw [getStore_setStore_ne _ _ (by decide), getStore_setStore_ne _ _ (by decide),
        getStore_setStore_ne _ _ (by decide), getStore_setStore_ne _ _ (by decide)]
    exact getStore_filter_client_keys base (by decide)

/-- Like `getStore_update_credentials4` but with `rt_acquired_at` included
in the written dict (the `new_refresh_token` case). -/
theorem getStore_update_credentials5 (base : Store) (a r e c rt : Option String) :
    getStore (update_credentials base
      [("access_token", a), ("refresh_token", r), ("expires_at", e),
       ("company_id", c), ("rt_acquired_at", rt)]) "access_token" = a ∧
    getStore (update_credentials base
      [("access_token", a), ("refresh_token", r), ("expires_at", e),
       ("company_id", c), ("rt_acquired_at", rt)]) "refresh_token" = r ∧
    getStore (update_credentials base
      [("access_token", a), ("refresh_token", r), ("expires_at", e),
       ("company_id", c), ("rt_acquired_at", rt)]) "expires_at" = e ∧
    getStore (update_credentials base
      [("access_token", a), ("refresh_token", r), ("expires_at", e),
       ("company_id", c), ("rt_acquired_at", rt)]) "company_id" = c ∧
    getStore (update_credentials base
      [("access_token", a), ("refresh_token", r), ("expires_at", e),
       ("company_id", c), ("rt_acquired_at", rt)]) "rt_acquired_at" = rt := by
  unfold update_credentials dictUpdate
  simp only [List.foldl_cons, List.foldl_nil]
  refine ⟨?_, ?_, ?_, ?_, ?_⟩
  · rw [getStore_setStore_ne _ _ (by decide), getStore_setStore_ne _ _ (by decide),
        getStore_setStore_ne _ _ (by decide), getStore_setStore_ne _ _ (by decide),
        getStore_setStore_self]
  · rw [getStore_setStore_ne _ _ (by decide), getStore_setStore_ne _ _ (by decide),
        getStore_setStore_ne _ _ (by decide), getStore_setStore_self]
  · rw [getStore_setStore_ne _ _ (by decide), getStore_setStore_ne _ _ (by decide),
        getStore_setStore_self]
  · rw [getStore_setStore_ne _ _ (by decide), getStore_setStore_self]
  · rw [getStore_setStore_self]

/-- The store written by a successful (non-absorbed) refresh from a state
with `new_refresh_token` clear: the four active credentials, nothing else. -/
theorem refreshOnce_success_store (st : AuthState) (env : RefreshEnv)
    (newAT newRT : String)
    (hflag : st.new_refresh_token = false)
    (hguard : refreshGuard st env.now = false)
    (hout : env.outcome = .success newAT newRT) :
    (refreshOnce st env).state.store =
      update_credentials st.store
        [("access_token", some newAT), ("refresh_token", some newRT),
         ("expires_at", some env.expStamp), ("company_id", st.realm_id)] ∧
    (refreshOnce st env).state.refresh_token = some newRT ∧
    (refreshOnce st env).raised = false := by
  unfold refreshOnce
  rw [if_neg (by simp [hguard]), hout]
  dsimp only
  unfold save_new_tokens active_credentials
  dsimp only
  rw [if_pos rfl, if_neg (by simp [hflag])]
  exact ⟨rfl, rfl, rfl⟩

/-- C7 (amended): a successful refresh persists access_token, refresh_token,
realm id and expires_at to the credential store but — `new_refresh_token`
being set only by the authorization callback — leaves the stored
`rt_acquired_at` untouched even when the exchange rotated the refresh token;
the initial-authorization flow persists all four plus a fresh
`rt_acquired_at`. -/
theorem c7_token_persistence (st : AuthState) (env : RefreshEnv)
    (newAT newRT : String)
    (hflag : st.new_refresh_token = false)
    (hguard : refreshGuard st env.now = false)
    (hout : env.outcome = .success newAT newRT)
    (realmId sAT sRT expStamp2 rtStamp2 : String) :
    (getStore (refreshOnce st env).state.store "access_token" = some newAT ∧
     getStore (refreshOnce st env).state.store "refresh_token" = some newRT ∧
     getStore (refreshOnce st env).state.store "expires_at" = some env.expStamp ∧
     getStore (refreshOnce st env).state.store "company_id" = st.realm_id ∧
     getStore (refreshOnce st env).state.store "rt_acquired_at" =
       getStore st.store "rt_acquired_at" ∧
     (refreshOnce st env).state.refresh_token = some newRT ∧
     (refreshOnce st env).raised = false) ∧
    (getStore (save_new_tokens (handle_authorized_callback st realmId sAT sRT)
        expStamp2 rtStamp2).store "access_token" = some sAT ∧
     getStore (save_new_tokens (handle_authorized_callback st realmId sAT sRT)
        expStamp2 rtStamp2).store "refresh_token" = some sRT ∧
     getStore (save_new_tokens (handle_authorized_callback st realmId sAT sRT)
        expStamp2 rtStamp2).store "expires_at" = some expStamp2 ∧
     getStore (save_new_tokens (handle_authorized_callback st realmId sAT sRT)
        expStamp2 rtStamp2).store "company_id" = some realmId ∧
     getStore (save_new_tokens (handle_authorized_callback st realmId sAT sRT)
        expStamp2 rtStamp2).store "rt_acquired_at" = some rtStamp2) := by
  constructor
  · rcases refreshOnce_success_store st env newAT newRT hflag hguard hout with
      ⟨hstore, hrt, hraised⟩
    rw [hstore]
    rcases getStore_update_credentials4 st.store (some newAT) (some newRT)
        (some env.expStamp) st.realm_id with ⟨g1, g2, g3, g4, g5⟩
    exact ⟨g1, g2, g3, g4, g5, hrt, hraised⟩
  · have hstore2 : (save_new_tokens (handle_authorized_callback st realmId sAT sRT)
        expStamp2 rtStamp2).store =
        update_credentials st.store
          [("access_token", some sAT), ("refresh_token", some sRT),
           ("expires_at", some expStamp2), ("company_id", some realmId),
           ("rt_acquired_at", some rtStamp2)] := by
      unfold handle_authorized_callback save_new_tokens active_credentials
      dsimp only
      rw [if_pos rfl, if_pos rfl]
      rfl
    rw [hstore2]
    rcases getStore_update_credentials5 st.store (some sAT) (some sRT)
        (some expStamp2) (some realmId) (some rtStamp2) with ⟨g1, g2, g3, g4, g5⟩
    exact ⟨g1, g2, g3, g4, g5⟩

/-- C7 counterexample: in the steady state with an expired access token, a
successful refresh rotates the refresh token yet the stored `rt_acquired_at`
keeps its old value instead of the fresh stamp — refuting "writes
rt_acquired_at exactly when the refresh_token actually changed". -/
theorem c7_counterexample : ¬ rtStampWrittenIffChanged stSteady envRotate := by
  intro hIff
  have hl : (refreshOnce stSteady envRotate).state.refresh_token ≠
      stSteady.refresh_token := by decide
  have hr := hIff.1 hl
  have hc : getStore (refreshOnce stSteady envRotate).state.store
      "rt_acquired_at" = some "2020-01-01 00:00:00" := by decide
  rw [hc] at hr
  exact absurd hr (by decide)

/-- C7 witness: the amended theorem applied to the steady state (refresh
with rotation) and to a concrete authorization callback. -/
theorem c7_witness :
    getStore (refreshOnce stSteady envRotate).state.store "refresh_token" =
      some "rt1" ∧
    getStore (refreshOnce stSteady envRotate).state.store "rt_acquired_at" =
      some "2020-01-01 00:00:00" ∧
    getStore (save_new_tokens (handle_authorized_callback stSteady "realmX"
        "atX" "rtX") "EXPSTAMP" "RTSTAMP").store "rt_acquired_at" =
      some "RTSTAMP" := by
  have h := c7_token_persistence stSteady envRotate "at1" "rt1" rfl (by decide)
    rfl "realmX" "atX" "rtX" "EXPSTAMP" "RTSTAMP"
  refine ⟨h.1.2.1, ?_, h.2.2.2.2.2⟩
  have h5 := h.1.2.2.2.2.1
  rw [h5]
  rfl

/-! ## Claims C5 and C8 -/

theorem beq_false_of_ne {a b : Nat} (h : a ≠ b) : (a == b) = false := by
  cases hb : a == b
  · rfl
  · exact absurd (eq_of_beq hb) h

theorem qbsRetryLoop_classifier (evs : Nat → HttpEvent)
    (renvs : Nat → Nat → RefreshEnv) (aj cp : Bool) :
    ∀ (fuel attempts : Nat) (sleeps : List Nat) (es : ExecState),
      (qbsRetryLoop evs renvs aj cp fuel attempts sleeps es).classifierInvocations
        = 0 := by
  intro fuel
  induction fuel with
  | zero => intro attempts sleeps es; rfl
  | succ f ih =>
    intro attempts sleeps es
    simp only [qbsRetryLoop]
    rcases basicCallAttempt evs renvs aj cp es with ⟨es2, r⟩
    cases r with
    | ok o => rfl
    | error e =>
      dsimp only
      cases hf : f == 0
      · rw [if_neg (by simp [hf])]
        exact ih _ _ _
      · rw [if_pos (by simp [hf])]

/-- One `_basic_call` body run yields 429's `RateLimitError` whenever the
transport script answers 429, and preserves a clear `new_token` flag. -/
theorem attempt_429 (evs : Nat → HttpEvent) (renvs : Nat → Nat → RefreshEnv)
    (aj cp : Bool) (h429 : ∀ i, statusOfEvent (evs i) = some 429)
    (es : ExecState) (hnt : es.auth.new_token = false) :
    (basicCallAttempt evs renvs aj cp es).2 = .error .rateLimit ∧
    (basicCallAttempt evs renvs aj cp es).1.auth.new_token = false := by
  have h := h429 es.nextEvent
  cases hev : evs es.nextEvent with
  | transportRaise => rw [hev] at h; cases h
  | resp s b r =>
    rw [hev] at h
    unfold statusOfEvent at h
    have hs : s = 429 := Option.some.inj h
    subst hs
    unfold basicCallAttempt qbaRequest
    simp [uRetryLoop, requestStep, hev, hnt]

/-- One `_basic_call` body run propagates the transport failure whenever the
transport raises, preserving `new_token`. -/
theorem attempt_transportFail (evs : Nat → HttpEvent)
    (renvs : Nat → Nat → RefreshEnv) (aj cp : Bool)
    (hconn : ∀ i, evs i = .transportRaise)
    (es : ExecState) (hnt : es.auth.new_token = false) :
    (basicCallAttempt evs renvs aj cp es).2 = .error .transportFail ∧
    (basicCallAttempt evs renvs aj cp es).1.auth.new_token = false := by
  unfold basicCallAttempt qbaRequest
  simp [uRetryLoop, requestStep, hconn es.nextEvent, hnt]

/-- One `_basic_call` body run on a response whose status is neither 200
(the only returning status), 401 nor 429 surfaces
`ConnectionError(error_message)` carrying the decoded body (or the raw
text), preserving `new_token`. -/
theorem attempt_unsupported (s : Nat) (body : Option JVal) (raw : String)
    (renvs : Nat → Nat → RefreshEnv) (aj cp : Bool)
    (h200 : s ≠ 200) (h401 : s ≠ 401) (h429 : s ≠ 429)
    (es : ExecState) (hnt : es.auth.new_token = false) :
    (basicCallAttempt (fun _ => .resp s body raw) renvs aj cp es).2 =
      .error (.connectionError body raw) ∧
    (basicCallAttempt (fun _ => .resp s body raw) renvs aj cp es).1.auth.new_token
      = false := by
  constructor
  · unfold basicCallAttempt qbaRequest
    simp [uRetryLoop, requestStep, hnt, beq_false_of_ne h401,
      beq_false_of_ne h429, basicCallHandleResponse]
    intro h
    exact absurd h h200
  · unfold basicCallAttempt qbaRequest
    simp [uRetryLoop, requestStep, hnt, beq_false_of_ne h401,
      beq_false_of_ne h429, basicCallHandleResponse]

/-- Running `_basic_call` when every body run fails the same way: the local
retry wrapper performs exactly 2 body runs with a single 200 ms sleep in
between, then propagates the exception. -/
theorem basicCall_const_error (evs : Nat → HttpEvent)
    (renvs : Nat → Nat → RefreshEnv) (aj cp : Bool) (e : BCException)
    (h : ∀ es : ExecState, es.auth.new_token = false →
      (basicCallAttempt evs renvs aj cp es).2 = .error e ∧
      (basicCallAttempt evs renvs aj cp es).1.auth.new_token = false)
    (es0 : ExecState) (h0 : es0.auth.new_token = false) :
    (basicCall evs renvs aj cp es0).result = .error e ∧
    (basicCall evs renvs aj cp es0).sleepsMs = [200] ∧
    (basicCall evs renvs aj cp es0).bodyRuns = 2 := by
  rcases ha : basicCallAttempt evs renvs aj cp es0 with ⟨es1, r1⟩
  rcases h es0 h0 with ⟨he0, hn0⟩
  rw [ha] at he0 hn0
  dsimp only at he0 hn0
  subst he0
  rcases hb : basicCallAttempt evs renvs aj cp es1 with ⟨es2, r2⟩
  rcases h es1 hn0 with ⟨he1, hn1⟩
  rw [hb] at he1 hn1
  dsimp only at he1 hn1
  subst he1
  unfold basicCall
  simp [qbsRetryLoop, ha, hb]

/-- C5 (amended): no code path of `_basic_call` constructs the error
classifier — for any run whatsoever the classifier-invocation count is zero,
fault-shaped body or not — and a response whose status lies outside the
allow-list {200, 400} is surfaced as a generic `ConnectionError` carrying
the body, except for the two statuses with dedicated handling: 401 (refresh
plus `UnauthorizedError`) and 429 (`RateLimitError`). -/
theorem c5_unsupported_status_bypasses_classifier :
    (∀ (evs : Nat → HttpEvent) (renvs : Nat → Nat → RefreshEnv)
        (aj cp : Bool) (es : ExecState),
      (basicCall evs renvs aj cp es).classifierInvocations = 0) ∧
    (∀ (s : Nat) (body : Option JVal) (raw : String)
        (renvs : Nat → Nat → RefreshEnv) (aj cp : Bool) (st : AuthState),
      st.new_token = false →
      SUPPORTED_STATUS_CODES.contains s = false → s ≠ 401 → s ≠ 429 →
      (basicCall (fun _ => .resp s body raw) renvs aj cp ⟨st, 0⟩).result =
        .error (.connectionError body raw)) := by
  constructor
  · intro evs renvs aj cp es
    exact qbsRetryLoop_classifier evs renvs aj cp 2 0 [] es
  · intro s body raw renvs aj cp st hnt hsupp h401 h429
    have h200 : s ≠ 200 := by
      intro h
      subst h
      exact absurd hsupp (by decide)
    exact (basicCall_const_error (fun _ => .resp s body raw) renvs aj cp
      (.connectionError body raw)
      (fun es hn => attempt_unsupported s body raw renvs aj cp h200 h401 h429 es hn)
      ⟨st, 0⟩ hnt).1

/-- C5 counterexample: a 429 response carrying fault-shaped JSON is not
surfaced as a generic connection error carrying the body — it raises
`RateLimitError` through the dedicated rate-limit path instead. -/
theorem c5_counterexample : ¬ status429SurfacedAsConnectionError := by
  intro h
  unfold status429SurfacedAsConnectionError at h
  have hc : (basicCall (fun _ => .resp 429 (some faultShapedBody) "rl-raw")
      renvsConst true false ⟨stSteady, 0⟩).result = .error .rateLimit := by
    exact (basicCall_const_error _ renvsConst true false .rateLimit
      (fun es hn => attempt_429 _ renvsConst true false
        (fun i => (rfl : statusOfEvent (HttpEvent.resp 429 (some faultShapedBody) "rl-raw") = some 429)) es hn)
      ⟨stSteady, 0⟩ rfl).1
  rw [hc] at h
  simp at h

/-- C5 witness: a 500 response with a fault-shaped JSON body is surfaced as
`ConnectionError` carrying that body, with zero classifier invocations. -/
theorem c5_witness :
    (basicCall (fun _ => .resp 500 (some faultShapedBody) "raw") renvsConst
        true false ⟨stSteady, 0⟩).result =
      .error (.connectionError (some faultShapedBody) "raw") ∧
    (basicCall (fun _ => .resp 500 (some faultShapedBody) "raw") renvsConst
        true false ⟨stSteady, 0⟩).classifierInvocations = 0 :=
  ⟨c5_unsupported_status_bypasses_classifier.2 500 (some faultShapedBody) "raw"
      renvsConst true false stSteady rfl (by decide) (by decide) (by decide),
   c5_unsupported_status_bypasses_classifier.1 _ renvsConst true false
     ⟨stSteady, 0⟩⟩

/-- C8 (amended): a 429 response raises `RateLimitError`, which only the
generic retry wrapper around `_basic_call` catches: the call is re-run once
(2 body runs in total, the bound `max_tries = 2`), with a single
0.2-second sleep — exactly the same bounded schedule as a generic
connection failure, with no larger delay and no multiplicative per-attempt
backoff factor — before the rate-limit error propagates to the caller. -/
theorem c8_rate_limit_retried_by_generic_wrapper :
    (∀ (evs : Nat → HttpEvent) (renvs : Nat → Nat → RefreshEnv)
        (aj cp : Bool) (st : AuthState),
      st.new_token = false →
      (∀ i, statusOfEvent (evs i) = some 429) →
      (basicCall evs renvs aj cp ⟨st, 0⟩).result = .error .rateLimit ∧
      (basicCall evs renvs aj cp ⟨st, 0⟩).sleepsMs = [200] ∧
      (basicCall evs renvs aj cp ⟨st, 0⟩).bodyRuns = 2) ∧
    (∀ (evs : Nat → HttpEvent) (renvs : Nat → Nat → RefreshEnv)
        (aj cp : Bool) (st : AuthState),
      st.new_token = false →
      (∀ i, evs i = .transportRaise) →
      (basicCall evs renvs aj cp ⟨st, 0⟩).result = .error .transportFail ∧
      (basicCall evs renvs aj cp ⟨st, 0⟩).sleepsMs = [200] ∧
      (basicCall evs renvs aj cp ⟨st, 0⟩).bodyRuns = 2) := by
  constructor
  · intro evs renvs aj cp st hnt h429
    exact basicCall_const_error evs renvs aj cp .rateLimit
      (fun es hn => attempt_429 evs renvs aj cp h429 es hn) ⟨st, 0⟩ hnt
  · intro evs renvs aj cp st hnt hconn
    exact basicCall_const_error evs renvs aj cp .transportFail
      (fun es hn => attempt_transportFail evs renvs aj cp hconn es hn) ⟨st, 0⟩ hnt

/-- C8 counterexample: the rate-limit retry delays are not larger than the
generic connection-failure delays — the two schedules are identical
([200 ms] each), refuting the larger-delay-with-backoff-factor claim. -/
theorem c8_counterexample : ¬ rateLimitDelayExceedsGeneric := by
  intro h
  rcases h with ⟨h1, h2, h3⟩
  have hm429 : (200 : Nat) ∈ run429.sleepsMs := by
    have : run429.sleepsMs = [200] := by decide
    rw [this]
    exact List.mem_singleton.2 rfl
  have hmconn : (200 : Nat) ∈ runConnFail.sleepsMs := by
    have : runConnFail.sleepsMs = [200] := by decide
    rw [this]
    exact List.mem_singleton.2 rfl
  exact absurd (h3 200 hm429 200 hmconn) (lt_irrefl 200)

/-- C8 witness: the amended theorem applied to the all-429 and
all-connection-failure transports. -/
theorem c8_witness :
    run429.result = .error .rateLimit ∧ run429.sleepsMs = [200] ∧
      run429.bodyRuns = 2 ∧ runConnFail.sleepsMs = [200] := by
  have h1 := c8_rate_limit_retried_by_generic_wrapper.1 evsAll429 renvsConst
    true false stSteady rfl
    (fun i => (rfl : statusOfEvent (evsAll429 i) = some 429))
  have h2 := c8_rate_limit_retried_by_generic_wrapper.2 evsAllConnFail
    renvsConst true false stSteady rfl
    (fun i => (rfl : evsAllConnFail i = HttpEvent.transportRaise))
  exact ⟨h1.1, h1.2.1, h1.2.2, h2.2.1⟩

/-! ## Claim C6 -/

end FoQbo
